import Mathlib

/-!
Verification development for the `cursor-otel-hook` repository.

This file gives a shallow embedding, in Lean 4, of the pure computational
core of the program:

* the Python attribute values and the two OTLP attribute encoders
  (`batching_processor._encode_attributes` / `json_exporter._encode_attributes`
  on one hand, the resource-attribute chain of
  `batching_processor._build_otlp_payload` on the other),
* the hexadecimal id rendering (`format(x, "032x")` / `format(x, "016x")`),
* the span encoders (`batching_processor._span_to_dict`,
  `json_exporter._encode_span`),
* the context store (`context_manager._determine_parent`,
  `context_manager.save_span_context`),
* the deterministic trace-id derivation
  (`context_manager.generate_session_trace_id`, i.e. SHA-256 truncated to
  128 bits, implemented here in full),
* the store drain and flush (`batching_processor.flush_generation`,
  `batching_processor._build_otlp_payload`),
* the span-creation identity policy
  (`hook_receiver.CursorHookProcessor._create_span_with_context`).

File-system state (the per-generation store file, the context record) is made
explicit: a store file is a value of type `Option (List StoreLine)` (`none` =
the file does not exist), the context record is a `ContextState`, and the
external uploader outcome is a boolean parameter.  Randomness
(`random.getrandbits(64)`, tracer-generated ids) is passed in as explicit
arguments.  Machine integers are `Nat` with explicit bounds where they matter.
-/

namespace CursorOtelHook

/-! ## Python runtime values

Attribute values flowing through the encoders.  `vBool` and `vInt` are kept
separate constructors, but Python's `bool` is a subclass of `int`, so
`isinstance(value, int)` is true for both; the encoders below reproduce the
exact order of the `isinstance` chains of the source.  A `float` payload is
never computed with, only passed through to `{"doubleValue": value}`, so it is
carried as its literal rendering.  `vOther s` stands for a value of any other
type whose `str()` form is `s`. -/
inductive PyValue where
  | vBool (b : Bool)
  | vInt (n : Int)
  | vFloat (lit : String)
  | vStr (s : String)
  | vList (str : String)
  | vNone
  | vOther (str : String)
  deriving Repr, BEq, DecidableEq

/-- Python `str()` on the values above.  `str(True) = "True"`,
`str(False) = "False"`, `str(5) = "5"`, `str(None) = "None"`; a `list`/`tuple`
value, like a value of unknown type, is carried as its `str()` rendering,
which is all the encoders ever use of it. -/
def pyStr : PyValue → String
  | .vBool true => "True"
  | .vBool false => "False"
  | .vInt n => toString n
  | .vFloat lit => lit
  | .vStr s => s
  | .vNone => "None"
  | .vList str => str
  | .vOther str => str

/-! ## OTLP JSON attribute values -/

/-- The `value` object of an OTLP JSON attribute: exactly one of the four
variant keys is present. -/
inductive AttrValue where
  | boolValue (b : Bool)
  | intValue (s : String)
  | doubleValue (lit : String)
  | stringValue (s : String)
  deriving Repr, BEq

/-- One OTLP JSON attribute `{key, value}`. -/
structure OtlpAttr where
  key : String
  value : AttrValue
  deriving Repr, BEq

/-- `_encode_attributes` value chain (identical in
`batching_processor.py` and `json_exporter.py`):
`isinstance(value, bool)` is tested FIRST, then `int`, `float`, `str`,
`list/tuple`, and everything else falls back to `str(value)`.
Because the `bool` test precedes the `int` test, a boolean becomes
`{"boolValue": value}`. -/
def encodeAttrValue : PyValue → AttrValue
  | .vBool b => .boolValue b
  | .vInt n => .intValue (pyStr (.vInt n))
  | .vFloat lit => .doubleValue lit
  | .vStr s => .stringValue s
  | .vList str => .stringValue (pyStr (.vList str))
  | v => .stringValue (pyStr v)

/-- `_encode_attributes`: the loop `for key, value in attributes.items()`. -/
def encode_attributes (attributes : List (String × PyValue)) : List OtlpAttr :=
  attributes.map (fun kv => { key := kv.1, value := encodeAttrValue kv.2 })

/-- The value chain of `_build_otlp_payload` for merged resource attributes:
here the order is `str`, then `int`, then `float`, then `bool`, else
`str(value)`.  Since Python's `bool` is a subclass of `int`,
`isinstance(value, int)` is already true for a boolean, so a boolean is
captured by the `int` branch and rendered `{"intValue": str(value)}`; the
`bool` branch of the source is dead code. -/
def encodeResourceValue : PyValue → AttrValue
  | .vStr s => .stringValue s
  | .vBool b => .intValue (pyStr (.vBool b))
  | .vInt n => .intValue (pyStr (.vInt n))
  | .vFloat lit => .doubleValue lit
  | v => .stringValue (pyStr v)

/-! ## Hexadecimal id rendering

`format(x, "032x")` / `format(x, "016x")`: minimal lower-case hex digits of
`x`, left-padded with `'0'` to the requested width (longer than the width if
`x` needs more digits). -/

/-- One lower-case hexadecimal digit character (for `0 ≤ n < 16`). -/
def hexDigitChar (n : Nat) : Char :=
  if n < 10 then Char.ofNat (48 + n) else Char.ofNat (87 + n)

/-- Most-significant-first hex digit list of `n` (no leading zeros; `[0]`
renders as `"0"`). -/
def natToHexDigits (n : Nat) : List Char :=
  if _h : n < 16 then [hexDigitChar n]
  else natToHexDigits (n / 16) ++ [hexDigitChar (n % 16)]
decreasing_by exact Nat.div_lt_self (by omega) (by omega)

/-- Python `format(n, "0" + width + "x")`. -/
def pyFormatHex (width n : Nat) : String :=
  let ds := natToHexDigits n
  ⟨List.replicate (width - ds.length) '0' ++ ds⟩

/-- Character class `[0-9a-f]`. -/
def isLowerHexChar (c : Char) : Bool :=
  ('0' ≤ c && c ≤ '9') || ('a' ≤ c && c ≤ 'f')

/-- Every character of a string is a lower-case hex digit. -/
def allLowerHex (s : String) : Prop :=
  ∀ c ∈ s.data, isLowerHexChar c = true

theorem hexDigitChar_isLowerHex (n : Nat) (h : n < 16) :
    isLowerHexChar (hexDigitChar n) = true := by
  interval_cases n <;> decide

theorem natToHexDigits_length_pos (n : Nat) : 0 < (natToHexDigits n).length := by
  rw [natToHexDigits]
  split <;> simp

theorem natToHexDigits_length_le :
    ∀ (k n : Nat), 0 < k → n < 16 ^ k → (natToHexDigits n).length ≤ k := by
  intro k
  induction k with
  | zero => intro n h _; omega
  | succ k ih =>
    intro n _ hn
    rw [natToHexDigits]
    split
    · simp
    · rename_i h
      have hk : 0 < k := by
        rcases Nat.eq_zero_or_pos k with hk0 | hk0
        · subst hk0; simp [pow_succ] at hn; omega
        · exact hk0
      have hdiv : n / 16 < 16 ^ k := by
        have : n < 16 * 16 ^ k := by rw [← pow_succ']; exact hn
        exact Nat.div_lt_of_lt_mul this
      have := ih (n / 16) hk hdiv
      simp only [List.length_append, List.length_cons, List.length_nil]
      omega

theorem natToHexDigits_isLowerHex (n : Nat) :
    ∀ c ∈ natToHexDigits n, isLowerHexChar c = true := by
  induction n using Nat.strong_induction_on with
  | _ n ih =>
    rw [natToHexDigits]
    split
    · rename_i h
      intro c hc
      simp only [List.mem_singleton] at hc
      subst hc
      exact hexDigitChar_isLowerHex n h
    · rename_i h
      intro c hc
      rw [List.mem_append] at hc
      rcases hc with hc | hc
      · exact ih (n / 16) (Nat.div_lt_self (by omega) (by omega)) c hc
      · simp only [List.mem_singleton] at hc
        subst hc
        exact hexDigitChar_isLowerHex _ (Nat.mod_lt _ (by omega))

theorem pyFormatHex_length (w n : Nat) (hw : 0 < w) (hn : n < 16 ^ w) :
    (pyFormatHex w n).length = w := by
  have h1 := natToHexDigits_length_le w n hw hn
  show (List.replicate (w - (natToHexDigits n).length) '0' ++ natToHexDigits n).length = w
  simp only [List.length_append, List.length_replicate]
  omega

theorem pyFormatHex_isLowerHex (w n : Nat) : allLowerHex (pyFormatHex w n) := by
  intro c hc
  have hc' : c ∈ List.replicate (w - (natToHexDigits n).length) '0' ++ natToHexDigits n := hc
  rw [List.mem_append] at hc'
  rcases hc' with hc' | hc'
  · have := List.eq_of_mem_replicate hc'
    subst this
    decide
  · exact natToHexDigits_isLowerHex n c hc'

/-! ## Span records and the two span encoders -/

/-- The pair a `SpanContext` (or a stored parent pointer) contributes:
`{trace_id, span_id}` as integers. -/
structure SpanCtx where
  trace_id : Nat
  span_id : Nat
  deriving Repr, BEq, DecidableEq

/-- `opentelemetry.trace.SpanKind`; `unspecified` stands for any value not in
the encoder's `kind_map` (encoded `0`). -/
inductive PySpanKind where
  | internal | server | client | producer | consumer | unspecified
  deriving Repr, BEq, DecidableEq

/-- `opentelemetry.trace.StatusCode`. -/
inductive PyStatusCode where
  | unset | ok | error
  deriving Repr, BEq, DecidableEq

/-- A span `status` object: its code and optional description (Python
`None` ≘ `none`). -/
structure PyStatus where
  status_code : PyStatusCode
  description : Option String
  deriving Repr, BEq, DecidableEq

/-- A span event: `timestamp`, `name`, `attributes` (Python `None` and `{}`
are both falsy under `if event.attributes:` and are collapsed to `[]`). -/
structure PyEvent where
  timestamp : Nat
  name : String
  attributes : List (String × PyValue)
  deriving Repr, BEq

/-- The slice of a `ReadableSpan` the encoders read: the span context, the
optional parent context, name, kind, times, attributes (`span.attributes or
{}` collapses `None` to `[]`), status, events, and the resource attributes
(`none` ≘ `span.resource` is falsy). -/
structure PySpan where
  ctx : SpanCtx
  parent : Option SpanCtx
  name : String
  kind : PySpanKind
  start_time : Nat
  end_time : Nat
  attributes : List (String × PyValue)
  status : Option PyStatus
  events : List PyEvent
  resource : Option (List (String × PyValue))
  deriving Repr, BEq

/-- Encoded `status`. -/
structure OtlpStatus where
  code : Nat
  message : Option String
  deriving Repr, BEq

/-- Encoded event. -/
structure OtlpEvent where
  timeUnixNano : String
  name : String
  attributes : Option (List OtlpAttr)
  deriving Repr, BEq

/-- An encoded OTLP JSON span object.  `parentSpanId = none` /
`events = none` model the ABSENCE of the corresponding JSON key. -/
structure OtlpSpan where
  traceId : String
  spanId : String
  name : String
  kind : Nat
  startTimeUnixNano : String
  endTimeUnixNano : String
  attributes : List OtlpAttr
  status : OtlpStatus
  parentSpanId : Option String
  events : Option (List OtlpEvent)
  deriving Repr, BEq

/-- `_encode_span_kind`: `kind_map.get(kind, 0)`. -/
def encode_span_kind : PySpanKind → Nat
  | .internal => 1
  | .server => 2
  | .client => 3
  | .producer => 4
  | .consumer => 5
  | .unspecified => 0

/-- `_encode_status`: `None` status encodes to `{code: 0}`; otherwise the
mapped code with `message` added only when `status.description` is truthy
(so neither `None` nor the empty string). -/
def encode_status : Option PyStatus → OtlpStatus
  | none => { code := 0, message := none }
  | some st =>
    { code :=
        match st.status_code with
        | .unset => 0
        | .ok => 1
        | .error => 2
      message :=
        match st.description with
        | some d => if d ≠ "" then some d else none
        | none => none }

/-- `_encode_event`. -/
def encode_event (e : PyEvent) : OtlpEvent :=
  { timeUnixNano := toString e.timestamp
    name := e.name
    attributes :=
      if e.attributes.isEmpty then none else some (encode_attributes e.attributes) }

/-- `json_exporter.OTLPJSONSpanExporter._encode_span`: ids rendered with
`format(_, "032x")` / `format(_, "016x")`; `parentSpanId` added only when the
rendered parent id string is truthy (`if parent_span_id:`), `events` only when
`span.events` is truthy. -/
def encode_span (span : PySpan) : OtlpSpan :=
  let trace_id := pyFormatHex 32 span.ctx.trace_id
  let span_id := pyFormatHex 16 span.ctx.span_id
  let parent_span_id : Option String :=
    span.parent.map (fun p => pyFormatHex 16 p.span_id)
  { traceId := trace_id
    spanId := span_id
    name := span.name
    kind := encode_span_kind span.kind
    startTimeUnixNano := toString span.start_time
    endTimeUnixNano := toString span.end_time
    attributes := encode_attributes span.attributes
    status := encode_status span.status
    parentSpanId :=
      match parent_span_id with
      | some s => if s ≠ "" then some s else none
      | none => none
    events :=
      if span.events.isEmpty then none else some (span.events.map encode_event) }

/-- What `batching_processor._store_span` writes as one line: the OTLP span
dict plus the `"_resource"` key (`none` models a stored line without that
key, as `flush_generation` checks `if "_resource" in span_data`). -/
structure StoredRecord where
  span : OtlpSpan
  resource : Option (List (String × PyValue))
  deriving Repr, BEq

/-- `batching_processor.GenerationBatchingProcessor._span_to_dict`: identical
span encoding to `json_exporter._encode_span`, plus
`otlp_span["_resource"] = dict(span.resource.attributes) if span.resource
else {}`. -/
def span_to_dict (span : PySpan) : StoredRecord :=
  let trace_id := pyFormatHex 32 span.ctx.trace_id
  let span_id := pyFormatHex 16 span.ctx.span_id
  let parent_span_id : Option String :=
    span.parent.map (fun p => pyFormatHex 16 p.span_id)
  { span :=
      { traceId := trace_id
        spanId := span_id
        name := span.name
        kind := encode_span_kind span.kind
        startTimeUnixNano := toString span.start_time
        endTimeUnixNano := toString span.end_time
        attributes := encode_attributes span.attributes
        status := encode_status span.status
        parentSpanId :=
          match parent_span_id with
          | some s => if s ≠ "" then some s else none
          | none => none
        events :=
          if span.events.isEmpty then none else some (span.events.map encode_event) }
    resource := some (span.resource.getD []) }

/-- The span part written by `_span_to_dict` coincides with
`_encode_span` (the two source functions have the same body apart from
`"_resource"`). -/
theorem span_to_dict_span_eq (s : PySpan) : (span_to_dict s).span = encode_span s := rfl

/-! ## Context store (`context_manager.GenerationContextManager`) -/

/-- The per-span info `save_span_context` stores under each pointer key:
`{"trace_id", "span_id", "hook_event", "timestamp"}`. -/
structure SpanInfo where
  trace_id : Nat
  span_id : Nat
  hook_event : String
  timestamp : Nat
  deriving Repr, BEq, DecidableEq

/-- The JSON context record of one generation.  A pointer that is absent from
the JSON object and a pointer stored as `null` both read back as `None` via
`context.get(...)`, so both are modelled `none`. -/
structure ContextState where
  current_session_span : Option SpanInfo
  current_subagent_span : Option SpanInfo
  current_tool_span : Option SpanInfo
  session_trace_id : Option Nat
  deriving Repr, BEq, DecidableEq

/-- The empty context record `{}` (also what `sessionEnd` leaves behind). -/
def emptyContext : ContextState :=
  { current_session_span := none
    current_subagent_span := none
    current_tool_span := none
    session_trace_id := none }

/-- The tool-completion hook events of `_determine_parent` /
`save_span_context`. -/
def toolCompletionEvents : List String :=
  ["postToolUse", "postToolUseFailure", "afterShellExecution",
   "afterMCPExecution", "afterFileEdit"]

/-- The tool-start hook events of `_determine_parent` / `save_span_context`. -/
def toolStartEvents : List String :=
  ["preToolUse", "beforeShellExecution", "beforeMCPExecution", "beforeReadFile"]

/-- Projection of a stored `SpanInfo` to the `{trace_id, span_id}` pair
`_determine_parent` returns. -/
def spanInfoCtx (si : SpanInfo) : SpanCtx :=
  { trace_id := si.trace_id, span_id := si.span_id }

/-- `GenerationContextManager._determine_parent`.  The Python function is a
sequence of early returns; each guarded return that does NOT fire falls
through to the next, ending at the subagent-else-session-else-`None`
fallback.  `sessionStart` is the only designated root event. -/
def determine_parent (context : ContextState) (hook_event : String) :
    Option SpanCtx :=
  if hook_event = "sessionStart" then none
  else
    let currentSession := context.current_session_span
    let currentSubagent := context.current_subagent_span
    let currentTool := context.current_tool_span
    if hook_event ∈ toolCompletionEvents ∧ currentTool.isSome then
      currentTool.map spanInfoCtx
    else if hook_event = "subagentStart" ∧ currentSession.isSome then
      currentSession.map spanInfoCtx
    else if hook_event ∈ toolStartEvents ∧ currentSubagent.isSome then
      currentSubagent.map spanInfoCtx
    else if hook_event ∈ toolStartEvents ∧ currentSession.isSome then
      currentSession.map spanInfoCtx
    else if currentSubagent.isSome then
      currentSubagent.map spanInfoCtx
    else if currentSession.isSome then
      currentSession.map spanInfoCtx
    else
      none

/-- The read-modify-write core of
`GenerationContextManager.save_span_context`: how the context record read
from disk is transformed before being written back.  `timestamp` stands for
`time.time()`. -/
def save_span_context_update (context : ContextState) (hook_event : String)
    (trace_id span_id timestamp : Nat) : ContextState :=
  let span_info : SpanInfo :=
    { trace_id := trace_id, span_id := span_id, hook_event := hook_event,
      timestamp := timestamp }
  if hook_event = "sessionStart" then
    { current_session_span := some span_info
      current_subagent_span := none
      current_tool_span := none
      session_trace_id := some trace_id }
  else if hook_event = "sessionEnd" then
    emptyContext
  else if hook_event = "subagentStart" then
    { context with
        current_subagent_span := some span_info
        current_tool_span := none }
  else if hook_event = "subagentStop" then
    { context with
        current_subagent_span := none
        current_tool_span := none }
  else if hook_event ∈ toolStartEvents then
    { context with current_tool_span := some span_info }
  else if hook_event ∈ toolCompletionEvents then
    { context with current_tool_span := none }
  else
    context

/-! ## Deterministic trace-id derivation
(`context_manager.generate_session_trace_id`)

`hashlib.sha256(conversation_id.encode("utf-8")).digest()` is implemented
here in full: UTF-8 encoding of the string, then FIPS 180-4 SHA-256 over the
byte sequence, producing the 32 digest bytes; the trace id is
`int.from_bytes(digest[:16], byteorder="big")`.  32-bit words are `Nat`
truncated with `% 2^32`. -/

/-- Truncation to 32 bits. -/
def w32 (n : Nat) : Nat := n % 4294967296

/-- 32-bit right rotation (argument assumed `< 2^32`; the result is
re-truncated). -/
def rotr32 (x n : Nat) : Nat := w32 ((x >>> n) ||| (x <<< (32 - n)))

/-- SHA-256 `Ch(x,y,z)`; `¬x` on 32 bits is `x XOR 0xffffffff`. -/
def shaCh (x y z : Nat) : Nat := (x &&& y) ^^^ ((x ^^^ 4294967295) &&& z)

/-- SHA-256 `Maj(x,y,z)`. -/
def shaMaj (x y z : Nat) : Nat := (x &&& y) ^^^ (x &&& z) ^^^ (y &&& z)

/-- SHA-256 `Σ₀`. -/
def bigSigma0 (x : Nat) : Nat := rotr32 x 2 ^^^ rotr32 x 13 ^^^ rotr32 x 22

/-- SHA-256 `Σ₁`. -/
def bigSigma1 (x : Nat) : Nat := rotr32 x 6 ^^^ rotr32 x 11 ^^^ rotr32 x 25

/-- SHA-256 `σ₀`. -/
def smallSigma0 (x : Nat) : Nat := rotr32 x 7 ^^^ rotr32 x 18 ^^^ (x >>> 3)

/-- SHA-256 `σ₁`. -/
def smallSigma1 (x : Nat) : Nat := rotr32 x 17 ^^^ rotr32 x 19 ^^^ (x >>> 10)

/-- The 64 SHA-256 round constants. -/
def shaK : List Nat :=
  [1116352408, 1899447441, 3049323471, 3921009573,
   961987163, 1508970993, 2453635748, 2870763221,
   3624381080, 310598401, 607225278, 1426881987,
   1925078388, 2162078206, 2614888103, 3248222580,
   3835390401, 4022224774, 264347078, 604807628,
   770255983, 1249150122, 1555081692, 1996064986,
   2554220882, 2821834349, 2952996808, 3210313671,
   3336571891, 3584528711, 113926993, 338241895,
   666307205, 773529912, 1294757372, 1396182291,
   1695183700, 1986661051, 2177026350, 2456956037,
   2730485921, 2820302411, 3259730800, 3345764771,
   3516065817, 3600352804, 4094571909, 275423344,
   430227734, 506948616, 659060556, 883997877,
   958139571, 1322822218, 1537002063, 1747873779,
   1955562222, 2024104815, 2227730452, 2361852424,
   2428436474, 2756734187, 3204031479, 3329325298]

/-- The SHA-256 initial hash value. -/
def shaH0 : List Nat :=
  [1779033703, 3144134277, 1013904242, 2773480762,
   1359893119, 2600822924, 528734635, 1541459225]

/-- `k` big-endian bytes of `n` (most significant first). -/
def bytesBE (k n : Nat) : List Nat :=
  (List.range k).map (fun i => (n >>> (8 * (k - 1 - i))) % 256)

/-- FIPS 180-4 padding: append `0x80`, then zero bytes to 56 mod 64, then the
bit length as 8 big-endian bytes. -/
def sha256Pad (msg : List Nat) : List Nat :=
  msg ++ 128 :: (List.replicate ((119 - msg.length % 64) % 64) 0
    ++ bytesBE 8 (8 * msg.length))

/-- Split a byte list into 64-byte blocks (fuel-structural so that the
kernel can evaluate it; `fuel = bs.length` always suffices since every step
consumes at least one byte). -/
def chunksOf64Aux : Nat → List Nat → List (List Nat)
  | _, [] => []
  | 0, _ => []
  | fuel + 1, bs => bs.take 64 :: chunksOf64Aux fuel (bs.drop 64)

/-- Split a byte list into 64-byte blocks. -/
def chunksOf64 (bs : List Nat) : List (List Nat) :=
  chunksOf64Aux bs.length bs

/-- A 32-bit word from four bytes (big-endian). -/
def wordOfBytes (b0 b1 b2 b3 : Nat) : Nat :=
  ((b0 * 256 + b1) * 256 + b2) * 256 + b3

/-- The 16 message words of one 64-byte block. -/
def blockWords (block : List Nat) : List Nat :=
  (List.range 16).map (fun i =>
    wordOfBytes (block.getD (4 * i) 0) (block.getD (4 * i + 1) 0)
      (block.getD (4 * i + 2) 0) (block.getD (4 * i + 3) 0))

/-- Extend 16 message words to the 64-entry schedule `W`. -/
def extendWords (ws : List Nat) : List Nat :=
  (List.range 48).foldl
    (fun acc _ =>
      let t := acc.length
      acc ++ [w32 (smallSigma1 (acc.getD (t - 2) 0) + acc.getD (t - 7) 0
        + smallSigma0 (acc.getD (t - 15) 0) + acc.getD (t - 16) 0)])
    ws

/-- The eight working variables of the compression loop. -/
structure ShaState where
  a : Nat
  b : Nat
  c : Nat
  d : Nat
  e : Nat
  f : Nat
  g : Nat
  hh : Nat
  deriving Repr, BEq, DecidableEq

/-- Compress one 64-byte block into the running hash value (eight words). -/
def compressBlock (hv : List Nat) (block : List Nat) : List Nat :=
  let ws := extendWords (blockWords block)
  let init : ShaState :=
    { a := hv.getD 0 0, b := hv.getD 1 0, c := hv.getD 2 0, d := hv.getD 3 0,
      e := hv.getD 4 0, f := hv.getD 5 0, g := hv.getD 6 0, hh := hv.getD 7 0 }
  let fin := (List.range 64).foldl
    (fun st t =>
      let T1 := w32 (st.hh + bigSigma1 st.e + shaCh st.e st.f st.g
        + shaK.getD t 0 + ws.getD t 0)
      let T2 := w32 (bigSigma0 st.a + shaMaj st.a st.b st.c)
      { a := w32 (T1 + T2), b := st.a, c := st.b, d := st.c,
        e := w32 (st.d + T1), f := st.e, g := st.f, hh := st.g })
    init
  [w32 (hv.getD 0 0 + fin.a), w32 (hv.getD 1 0 + fin.b),
   w32 (hv.getD 2 0 + fin.c), w32 (hv.getD 3 0 + fin.d),
   w32 (hv.getD 4 0 + fin.e), w32 (hv.getD 5 0 + fin.f),
   w32 (hv.getD 6 0 + fin.g), w32 (hv.getD 7 0 + fin.hh)]

/-- SHA-256 digest of a byte sequence, as the eight final hash words. -/
def sha256Words (msg : List Nat) : List Nat :=
  (chunksOf64 (sha256Pad msg)).foldl compressBlock shaH0

/-- SHA-256 digest of a byte sequence, as 32 bytes. -/
def sha256 (msg : List Nat) : List Nat :=
  (sha256Words msg).flatMap (bytesBE 4)

/-- UTF-8 encoding of one character. -/
def utf8EncodeChar (c : Char) : List Nat :=
  let n := c.toNat
  if n < 128 then [n]
  else if n < 2048 then [192 + n / 64, 128 + n % 64]
  else if n < 65536 then
    [224 + n / 4096, 128 + (n / 64) % 64, 128 + n % 64]
  else
    [240 + n / 262144, 128 + (n / 4096) % 64, 128 + (n / 64) % 64, 128 + n % 64]

/-- `s.encode("utf-8")`. -/
def utf8Encode (s : String) : List Nat := s.data.flatMap utf8EncodeChar

/-- `int.from_bytes(bs, byteorder="big")`. -/
def intFromBytesBE (bs : List Nat) : Nat :=
  bs.foldl (fun acc b => acc * 256 + b) 0

/-- `context_manager.generate_session_trace_id`: SHA-256 of the UTF-8 encoded
conversation id, first 16 bytes, big-endian unsigned integer. -/
def generate_session_trace_id (conversation_id : String) : Nat :=
  intFromBytesBE ((sha256 (utf8Encode conversation_id)).take 16)

set_option maxRecDepth 100000 in
/-- Sanity check of the SHA-256 implementation against the FIPS 180-4 test
vector for `"abc"`. -/
theorem sha256_vector_abc :
    sha256 (utf8Encode "abc") =
      [0xba, 0x78, 0x16, 0xbf, 0x8f, 0x01, 0xcf, 0xea,
       0x41, 0x41, 0x40, 0xde, 0x5d, 0xae, 0x22, 0x23,
       0xb0, 0x03, 0x61, 0xa3, 0x96, 0x17, 0x7a, 0x9c,
       0xb4, 0x10, 0xff, 0x61, 0xf2, 0x00, 0x15, 0xad] := by decide

set_option maxRecDepth 100000 in
/-- Sanity check against the SHA-256 digest of the empty message. -/
theorem sha256_vector_empty :
    sha256 [] =
      [0xe3, 0xb0, 0xc4, 0x42, 0x98, 0xfc, 0x1c, 0x14,
       0x9a, 0xfb, 0xf4, 0xc8, 0x99, 0x6f, 0xb9, 0x24,
       0x27, 0xae, 0x41, 0xe4, 0x64, 0x9b, 0x93, 0x4c,
       0xa4, 0x95, 0x99, 0x1b, 0x78, 0x52, 0xb8, 0x55] := by decide

/-! ## Generation store, drain and flush
(`batching_processor.GenerationBatchingProcessor`) -/

/-- One line of a generation's `.jsonl` store file, classified the way the
drain loop of `flush_generation` observes it: `blank` is a line with only
whitespace (`if line.strip():` skips it), `malformed` is a non-blank line on
which `json.loads` raises, `record r` is a line parsing to record `r`. -/
inductive StoreLine where
  | blank
  | malformed
  | record (r : StoredRecord)
  deriving Repr, BEq

/-- Python `dict` assignment `d[k] = v`: replace the value in place if the
key is present (first occurrence; keys of a real dict are unique), else
append. -/
def dictUpdate : List (String × PyValue) → String → PyValue →
    List (String × PyValue)
  | [], k, v => [(k, v)]
  | (k', v') :: rest, k, v =>
      if k' = k then (k, v) :: rest else (k', v') :: dictUpdate rest k v

/-- Python `d.update(fr)`: assign every binding of `fr` in iteration order. -/
def dictUpdateAll (m fr : List (String × PyValue)) : List (String × PyValue) :=
  fr.foldl (fun acc kv => dictUpdate acc kv.1 kv.2) m

/-- The read loop of `flush_generation` (lines 299-306): skip blank lines,
`json.loads` each remaining line — an unparseable line raises, which the
enclosing `try` of `flush_generation` turns into a failed flush — pop the
`"_resource"` fragment into the running `resource_attrs.update(...)` merge,
and append the remaining span object to `spans_data`. -/
def drainLoop : List StoreLine → List OtlpSpan → List (String × PyValue) →
    Except Unit (List OtlpSpan × List (String × PyValue))
  | [], spans, res => .ok (spans, res)
  | .blank :: rest, spans, res => drainLoop rest spans res
  | .malformed :: _, _, _ => .error ()
  | .record r :: rest, spans, res =>
      match r.resource with
      | some fr => drainLoop rest (spans ++ [r.span]) (dictUpdateAll res fr)
      | none => drainLoop rest (spans ++ [r.span]) res

/-- The flushed batch, modelling the fixed shape
`{resourceSpans: [{resource: {attributes: ras}, scopeSpans: [{scope: {name:
sn}, spans: spans}]}]}` built by `_build_otlp_payload`. -/
structure OtlpPayload where
  resource_attributes : List OtlpAttr
  scope_name : String
  spans : List OtlpSpan
  deriving Repr, BEq

/-- `GenerationBatchingProcessor._build_otlp_payload`: the resource attribute
list starts with `{service.name: service_name}`, then every merged fragment
binding except key `"service.name"` is appended, encoded through the
`str`/`int`/`float`/`bool` chain (`encodeResourceValue`). -/
def build_otlp_payload (spans : List OtlpSpan) (service_name : String)
    (resource_attrs : List (String × PyValue)) : OtlpPayload :=
  { resource_attributes :=
      { key := "service.name", value := AttrValue.stringValue service_name } ::
      (resource_attrs.filter (fun kv => kv.1 != "service.name")).map
        (fun kv => { key := kv.1, value := encodeResourceValue kv.2 })
    scope_name := "cursor_otel_hook"
    spans := spans }

/-- Outcome of one `flush_generation` call: the returned boolean, the state
of the store file afterwards (`none` = deleted / never existed), and the
payload passed to the uploader (`none` = the uploader was not invoked). -/
structure FlushResult where
  success : Bool
  fileAfter : Option (List StoreLine)
  uploaded : Option OtlpPayload
  deriving Repr, BEq

/-- `GenerationBatchingProcessor.flush_generation`, with the file system and
the external uploader made explicit.  `file` is the store file's content
(`none` = `not span_file.exists()`); `uploaderOk` is the result the external
uploader reports when invoked.  Control flow of the source: missing file ⇒
`True`; a line failing `json.loads` raises into the outer `except` ⇒ `False`
with the file untouched; no parsed span ⇒ `unlink()` (unconditionally, even
in debug mode) and `True`; otherwise build the payload, upload, and on
success delete the file unless `self.debug`, on failure keep it. -/
def flush_generation (file : Option (List StoreLine)) (service_name : String)
    (debug : Bool) (uploaderOk : Bool) : FlushResult :=
  match file with
  | none => { success := true, fileAfter := none, uploaded := none }
  | some lines =>
    match drainLoop lines [] [] with
    | .error _ => { success := false, fileAfter := some lines, uploaded := none }
    | .ok (spans_data, resource_attrs) =>
      if spans_data.isEmpty then
        { success := true, fileAfter := none, uploaded := none }
      else
        let payload := build_otlp_payload spans_data service_name resource_attrs
        if uploaderOk then
          { success := true
            fileAfter := if debug then some lines else none
            uploaded := some payload }
        else
          { success := false, fileAfter := some lines, uploaded := some payload }

/-! ## Conversation-id → trace-id map and span-creation identity policy -/

/-- The per-conversation trace-id map state. -/
def ConvMap := String → Option Nat

/-- Modelled from the spec: `saveConversationTraceId(conv_id, trace_id)` —
"independent map, cleared only by age-sweep, never by session-end".  The
method `save_conversation_trace_id` is called from `hook_receiver.py` on
`sessionStart`, but its defining code is not among the provided sources. -/
def save_conversation_trace_id (m : ConvMap) (conversation_id : String)
    (trace_id : Nat) : ConvMap :=
  fun c => if c = conversation_id then some trace_id else m c

/-- Modelled from the spec: `getTraceIdForConversation(conv_id) → optional
128-bit id`.  The method `get_conversation_trace_id` is called from
`hook_receiver.py`, but its defining code is not among the provided
sources. -/
def get_conversation_trace_id (m : ConvMap) (conversation_id : String) :
    Option Nat :=
  m conversation_id

/-- What `_create_span_with_context` decides: start a fresh root span with
tracer-generated ids, or start the span under an explicit
`NonRecordingSpan(SpanContext(parent))`. -/
inductive SpanCreation where
  | freshRoot
  | underParent (parent : SpanCtx)
  deriving Repr, BEq, DecidableEq

/-- Modelled from the spec (§4.4, the OTel tracer is an external
collaborator): starting a span under an explicit parent context reuses the
parent's trace id with a fresh random span id; starting it with no context
draws a fresh trace id and span id.  Returns `(trace_id, span_id)` of the
created span. -/
def created_ids (d : SpanCreation) (fresh_trace_id fresh_span_id : Nat) :
    Nat × Nat :=
  match d with
  | .freshRoot => (fresh_trace_id, fresh_span_id)
  | .underParent p => (p.trace_id, fresh_span_id)

/-- Python truthiness of an optional string (`None` and `""` are falsy). -/
def truthyStr : Option String → Bool
  | some s => s != ""
  | none => false

/-- Python truthiness of an optional integer (`None` and `0` are falsy). -/
def truthyNat : Option Nat → Bool
  | some n => n != 0
  | none => false

/-- `hook_receiver.CursorHookProcessor._create_span_with_context`, as the
decision which span context (if any) the new span is started under.
`conv_map` is the conversation map state, `session_trace_of_gen` the
`get_session_trace_id` lookup on the generation's context record, and
`rand_span_id` the `random.getrandbits(64)` draw used for the synthetic
parent context.  The processor runs in HTTP/JSON mode, where
`self.context_manager` is always set. -/
def create_span_with_context (parent_context : Option SpanCtx)
    (conversation_id hook_event generation_id : Option String)
    (conv_map : ConvMap) (session_trace_of_gen : String → Option Nat)
    (rand_span_id : Nat) : SpanCreation :=
  match parent_context with
  | none =>
    if hook_event == some "sessionStart" && truthyStr conversation_id
        && conversation_id != some "unknown" then
      .underParent
        { trace_id := generate_session_trace_id (conversation_id.getD "")
          span_id := rand_span_id }
    else if truthyStr conversation_id && conversation_id != some "unknown" then
      match get_conversation_trace_id conv_map (conversation_id.getD "") with
      | some t =>
          if t != 0 then
            .underParent { trace_id := t, span_id := rand_span_id }
          else .freshRoot
      | none => .freshRoot
    else .freshRoot
  | some pc =>
    let st1 : Option Nat :=
      if truthyStr generation_id && generation_id != some "unknown" then
        session_trace_of_gen (generation_id.getD "")
      else none
    let st2 : Option Nat :=
      if !truthyNat st1 && truthyStr conversation_id
          && conversation_id != some "unknown" then
        get_conversation_trace_id conv_map (conversation_id.getD "")
      else st1
    if truthyNat st2 then
      .underParent { trace_id := st2.getD 0, span_id := pc.span_id }
    else
      .underParent { trace_id := pc.trace_id, span_id := pc.span_id }

/-! ## Supporting lemmas -/

theorem bytesBE_lt (k n : Nat) : ∀ b ∈ bytesBE k n, b < 256 := by
  intro b hb
  simp only [bytesBE, List.mem_map, List.mem_range] at hb
  obtain ⟨i, _, rfl⟩ := hb
  exact Nat.mod_lt _ (by omega)

theorem sha256_bytes_lt (msg : List Nat) : ∀ b ∈ sha256 msg, b < 256 := by
  intro b hb
  simp only [sha256, List.mem_flatMap] at hb
  obtain ⟨w, _, hw⟩ := hb
  exact bytesBE_lt 4 w b hw

theorem intFromBytesBE_foldl_lt (bs : List Nat) :
    ∀ acc, (∀ b ∈ bs, b < 256) →
      bs.foldl (fun acc b => acc * 256 + b) acc < (acc + 1) * 256 ^ bs.length := by
  induction bs with
  | nil =>
    intro acc _
    simp only [List.foldl_nil, List.length_nil, pow_zero, mul_one]
    omega
  | cons b bs ih =>
    intro acc hlt
    have hb : b < 256 := hlt b (.head _)
    have h1 := ih (acc * 256 + b) (fun x hx => hlt x (.tail _ hx))
    have h2 : (acc * 256 + b + 1) * 256 ^ bs.length ≤
        (acc + 1) * 256 ^ (b :: bs).length := by
      simp only [List.length_cons, pow_succ]
      calc (acc * 256 + b + 1) * 256 ^ bs.length
          ≤ ((acc + 1) * 256) * 256 ^ bs.length :=
            Nat.mul_le_mul_right _ (by omega)
        _ = (acc + 1) * (256 ^ bs.length * 256) := by ring
    calc (b :: bs).foldl (fun acc b => acc * 256 + b) acc
        = bs.foldl (fun acc b => acc * 256 + b) (acc * 256 + b) := rfl
      _ < (acc * 256 + b + 1) * 256 ^ bs.length := h1
      _ ≤ (acc + 1) * 256 ^ (b :: bs).length := h2

theorem intFromBytesBE_lt (bs : List Nat) (h : ∀ b ∈ bs, b < 256) :
    intFromBytesBE bs < 256 ^ bs.length := by
  have := intFromBytesBE_foldl_lt bs 0 h
  simpa [intFromBytesBE] using this

theorem generate_session_trace_id_lt (s : String) :
    generate_session_trace_id s < 2 ^ 128 := by
  have h1 : ∀ b ∈ (sha256 (utf8Encode s)).take 16, b < 256 := by
    intro b hb
    exact sha256_bytes_lt _ b (List.mem_of_mem_take hb)
  have h2 := intFromBytesBE_lt _ h1
  have h3 : ((sha256 (utf8Encode s)).take 16).length ≤ 16 :=
    List.length_take_le _ _
  calc generate_session_trace_id s
      < 256 ^ ((sha256 (utf8Encode s)).take 16).length := h2
    _ ≤ 256 ^ 16 := Nat.pow_le_pow_right (by omega) h3
    _ = 2 ^ 128 := by norm_num

/-- First-match association lookup (how a Python dict with unique keys reads
back). -/
def assocLookup (m : List (String × PyValue)) (k : String) : Option PyValue :=
  (m.find? (fun kv => kv.1 == k)).map (fun kv => kv.2)

/-- Last-match association lookup: the binding of `k` written LAST. -/
def lookupLast (m : List (String × PyValue)) (k : String) : Option PyValue :=
  assocLookup m.reverse k

/-- The `"_resource"` fragments of the parseable records of a store file, in
file order. -/
def resourceFragments (lines : List StoreLine) : List (List (String × PyValue)) :=
  lines.filterMap (fun l =>
    match l with
    | .record r => r.resource
    | _ => none)

/-- The span objects of the parseable records of a store file, in file
order. -/
def parsedSpans (lines : List StoreLine) : List OtlpSpan :=
  lines.filterMap (fun l =>
    match l with
    | .record r => some r.span
    | _ => none)

/-- The merged resource map: every fragment applied with `update` in file
order, starting from `{}`. -/
def mergeFragments (frs : List (List (String × PyValue))) :
    List (String × PyValue) :=
  frs.foldl dictUpdateAll []

theorem assocLookup_nil (k : String) : assocLookup [] k = none := rfl

theorem assocLookup_cons (k0 : String) (v0 : PyValue)
    (rest : List (String × PyValue)) (k : String) :
    assocLookup ((k0, v0) :: rest) k =
      if k0 = k then some v0 else assocLookup rest k := by
  simp only [assocLookup, List.find?_cons]
  by_cases h : k0 = k
  · simp [h]
  · simp [h, beq_eq_false_iff_ne.mpr h]

theorem assocLookup_append (l1 l2 : List (String × PyValue)) (k : String) :
    assocLookup (l1 ++ l2) k =
      match assocLookup l1 k with
      | some v => some v
      | none => assocLookup l2 k := by
  induction l1 with
  | nil => simp [assocLookup_nil]
  | cons kv rest ih =>
    obtain ⟨k0, v0⟩ := kv
    rw [List.cons_append, assocLookup_cons, assocLookup_cons]
    by_cases h : k0 = k
    · simp [h]
    · simp [h, ih]

theorem assocLookup_dictUpdate (m : List (String × PyValue)) (k' : String)
    (v : PyValue) (k : String) :
    assocLookup (dictUpdate m k' v) k =
      if k' = k then some v else assocLookup m k := by
  induction m with
  | nil =>
    simp only [dictUpdate]
    rw [assocLookup_cons, assocLookup_nil]
  | cons kv rest ih =>
    obtain ⟨k0, v0⟩ := kv
    simp only [dictUpdate]
    by_cases h0 : k0 = k'
    · subst h0
      rw [if_pos rfl, assocLookup_cons, assocLookup_cons]
      by_cases h : k0 = k <;> simp [h]
    · rw [if_neg h0, assocLookup_cons, ih, assocLookup_cons]
      by_cases h : k0 = k
      · subst h
        have hk' : ¬ k' = k0 := fun hh => h0 hh.symm
        simp [hk']
      · simp [h]

theorem lookupLast_cons (kv : String × PyValue)
    (rest : List (String × PyValue)) (k : String) :
    lookupLast (kv :: rest) k =
      match lookupLast rest k with
      | some v => some v
      | none => if kv.1 = k then some kv.2 else none := by
  obtain ⟨k1, v1⟩ := kv
  simp only [lookupLast, List.reverse_cons]
  rw [assocLookup_append]
  cases assocLookup rest.reverse k with
  | none => simp [assocLookup_cons, assocLookup_nil]
  | some v => simp

theorem assocLookup_dictUpdateAll (fr : List (String × PyValue)) :
    ∀ (m : List (String × PyValue)) (k : String),
      assocLookup (dictUpdateAll m fr) k =
        match lookupLast fr k with
        | some v => some v
        | none => assocLookup m k := by
  induction fr with
  | nil =>
    intro m k
    simp [dictUpdateAll, lookupLast, assocLookup_nil]
  | cons kv rest ih =>
    intro m k
    obtain ⟨k1, v1⟩ := kv
    have hstep : dictUpdateAll m ((k1, v1) :: rest) =
        dictUpdateAll (dictUpdate m k1 v1) rest := rfl
    rw [hstep, ih, lookupLast_cons]
    cases lookupLast rest k with
    | some v => simp
    | none =>
      simp only
      rw [assocLookup_dictUpdate]
      by_cases h : k1 = k <;> simp [h]

theorem dictUpdateAll_append (m a b : List (String × PyValue)) :
    dictUpdateAll m (a ++ b) = dictUpdateAll (dictUpdateAll m a) b :=
  List.foldl_append ..

theorem foldl_dictUpdateAll_flatten (frs : List (List (String × PyValue))) :
    ∀ m, frs.foldl dictUpdateAll m = dictUpdateAll m frs.flatten := by
  induction frs with
  | nil => intro m; rfl
  | cons fr rest ih =>
    intro m
    simp only [List.foldl_cons, List.flatten_cons]
    rw [ih, dictUpdateAll_append]

/-- Last-write-wins characterization of the merged resource map: looking up
any key in the merge equals taking the LAST binding of that key across the
concatenation of all fragments in file order. -/
theorem assocLookup_mergeFragments (frs : List (List (String × PyValue)))
    (k : String) :
    assocLookup (mergeFragments frs) k = lookupLast frs.flatten k := by
  rw [mergeFragments, foldl_dictUpdateAll_flatten, assocLookup_dictUpdateAll]
  cases lookupLast frs.flatten k <;> simp [assocLookup_nil]

/-- A malformed line anywhere in the file makes the whole drain raise. -/
theorem drainLoop_error_of_malformed (lines : List StoreLine)
    (h : StoreLine.malformed ∈ lines) :
    ∀ spans res, drainLoop lines spans res = .error () := by
  induction lines with
  | nil => cases h
  | cons l rest ih =>
    intro spans res
    cases l with
    | blank =>
      have h' : StoreLine.malformed ∈ rest := by
        rcases List.mem_cons.mp h with h0 | h0
        · cases h0
        · exact h0
      exact ih h' spans res
    | malformed => rfl
    | record r =>
      have h' : StoreLine.malformed ∈ rest := by
        rcases List.mem_cons.mp h with h0 | h0
        · cases h0
        · exact h0
      simp only [drainLoop]
      cases r.resource <;> exact ih h' _ _

/-- A successful drain returns the parsed spans in file order and the fold of
the resource fragments over the accumulators. -/
theorem drainLoop_ok (lines : List StoreLine) :
    ∀ spans0 res0 spans res,
      drainLoop lines spans0 res0 = .ok (spans, res) →
      spans = spans0 ++ parsedSpans lines ∧
      res = (resourceFragments lines).foldl dictUpdateAll res0 := by
  induction lines with
  | nil =>
    intro spans0 res0 spans res h
    simp only [drainLoop] at h
    injection h with h
    injection h with h1 h2
    subst h1; subst h2
    simp [parsedSpans, resourceFragments]
  | cons l rest ih =>
    intro spans0 res0 spans res h
    cases l with
    | blank =>
      have := ih spans0 res0 spans res h
      simpa [parsedSpans, resourceFragments] using this
    | malformed => exact absurd h (by simp [drainLoop])
    | record r =>
      simp only [drainLoop] at h
      cases hres : r.resource with
      | some fr =>
        rw [hres] at h
        obtain ⟨h1, h2⟩ := ih _ _ _ _ h
        constructor
        · rw [h1]
          simp [parsedSpans, List.append_assoc]
        · rw [h2]
          simp [resourceFragments, hres, dictUpdateAll]
      | none =>
        rw [hres] at h
        obtain ⟨h1, h2⟩ := ih _ _ _ _ h
        constructor
        · rw [h1]
          simp [parsedSpans, List.append_assoc]
        · rw [h2]
          simp [resourceFragments, hres]

/-- Draining a file of blank lines only changes nothing. -/
theorem drainLoop_all_blank (lines : List StoreLine)
    (h : ∀ l ∈ lines, l = StoreLine.blank) :
    ∀ spans res, drainLoop lines spans res = .ok (spans, res) := by
  induction lines with
  | nil => intro spans res; rfl
  | cons l rest ih =>
    intro spans res
    have hl : l = StoreLine.blank := h l (.head _)
    subst hl
    exact ih (fun x hx => h x (.tail _ hx)) spans res

/-! ## Claim theorems -/

/-- C6: trace-id derivation is a pure deterministic function of the
conversation identifier: repeated calls return the identical value (the
embedding is a pure function, so this is definitional), the value equals the
first 16 bytes (128 bits) of the SHA-256 hash of the UTF-8 encoded id read as
a big-endian unsigned integer, and it is therefore always below `2^128`. -/
theorem C6_trace_id_deterministic (conversation_id : String) :
    generate_session_trace_id conversation_id =
        generate_session_trace_id conversation_id ∧
    generate_session_trace_id conversation_id =
      intFromBytesBE ((sha256 (utf8Encode conversation_id)).take 16) ∧
    generate_session_trace_id conversation_id < 2 ^ 128 :=
  ⟨rfl, rfl, generate_session_trace_id_lt conversation_id⟩

/-- C4: `save_span_context` mutates the context record exactly as the table
states: `sessionStart` sets the session pointer, clears the subagent and tool
pointers and records the trace id; `sessionEnd` resets the record to `{}`
(the source replaces the whole context with the empty dict); `subagentStart`
sets the subagent pointer and clears the tool pointer; `subagentStop` clears
both; tool-start kinds set the tool pointer; tool-completion kinds clear it;
every other event kind leaves the record unchanged. -/
theorem C4_save_mutation_table (context : ContextState)
    (trace_id span_id timestamp : Nat) (e : String) :
    (save_span_context_update context "sessionStart" trace_id span_id timestamp =
      { current_session_span :=
          some ⟨trace_id, span_id, "sessionStart", timestamp⟩
        current_subagent_span := none
        current_tool_span := none
        session_trace_id := some trace_id }) ∧
    (save_span_context_update context "sessionEnd" trace_id span_id timestamp =
      emptyContext) ∧
    (save_span_context_update context "subagentStart" trace_id span_id timestamp =
      { context with
          current_subagent_span :=
            some ⟨trace_id, span_id, "subagentStart", timestamp⟩
          current_tool_span := none }) ∧
    (save_span_context_update context "subagentStop" trace_id span_id timestamp =
      { context with
          current_subagent_span := none
          current_tool_span := none }) ∧
    (e ∈ toolStartEvents →
      save_span_context_update context e trace_id span_id timestamp =
        { context with
            current_tool_span := some ⟨trace_id, span_id, e, timestamp⟩ }) ∧
    (e ∈ toolCompletionEvents →
      save_span_context_update context e trace_id span_id timestamp =
        { context with current_tool_span := none }) ∧
    (e ∉ ["sessionStart", "sessionEnd", "subagentStart", "subagentStop"] →
      e ∉ toolStartEvents → e ∉ toolCompletionEvents →
      save_span_context_update context e trace_id span_id timestamp = context) := by
  refine ⟨rfl, rfl, rfl, rfl, ?_, ?_, ?_⟩
  · intro h
    simp only [toolStartEvents, List.mem_cons, List.mem_singleton,
      List.not_mem_nil, or_false] at h
    rcases h with h | h | h | h <;> subst h <;> rfl
  · intro h
    simp only [toolCompletionEvents, List.mem_cons, List.mem_singleton,
      List.not_mem_nil, or_false] at h
    rcases h with h | h | h | h | h <;> subst h <;> rfl
  · intro h1 h2 h3
    simp only [List.mem_cons, List.mem_singleton, List.not_mem_nil, or_false,
      not_or] at h1
    obtain ⟨e1, e2, e3, e4⟩ := h1
    simp [save_span_context_update, e1, e2, e3, e4, h2, h3]

/-- Witness for C4 at a concrete input: an event of no handled kind leaves a
concrete context record unchanged. -/
theorem C4_save_mutation_table_witness :
    save_span_context_update emptyContext "beforeSubmitPrompt" 1 2 3 =
      emptyContext :=
  (C4_save_mutation_table emptyContext 1 2 3 "beforeSubmitPrompt").2.2.2.2.2.2
    (by decide) (by decide) (by decide)

/-- C3: the hierarchy sequence on one generation.  After
`save(sessionStart)`, `getParent(subagentStart)` is the session span; after
`save(subagentStart)`, `getParent` of a tool-start kind (`preToolUse` class)
is the subagent span; after `save(preToolUse)`, `getParent(postToolUse)` is
the tool span; after `save(postToolUse)` the tool pointer is cleared, so a
later `getParent(postToolUse)` falls back to the subagent span. -/
theorem C3_hierarchy_sequence (t1 s1 t2 s2 t3 s3 t4 s4 : Nat)
    (ts1 ts2 ts3 ts4 : Nat) :
    determine_parent
        (save_span_context_update emptyContext "sessionStart" t1 s1 ts1)
        "subagentStart" = some ⟨t1, s1⟩ ∧
    determine_parent
        (save_span_context_update
          (save_span_context_update emptyContext "sessionStart" t1 s1 ts1)
          "subagentStart" t2 s2 ts2)
        "preToolUse" = some ⟨t2, s2⟩ ∧
    determine_parent
        (save_span_context_update
          (save_span_context_update
            (save_span_context_update emptyContext "sessionStart" t1 s1 ts1)
            "subagentStart" t2 s2 ts2)
          "preToolUse" t3 s3 ts3)
        "postToolUse" = some ⟨t3, s3⟩ ∧
    determine_parent
        (save_span_context_update
          (save_span_context_update
            (save_span_context_update
              (save_span_context_update emptyContext "sessionStart" t1 s1 ts1)
              "subagentStart" t2 s2 ts2)
            "preToolUse" t3 s3 ts3)
          "postToolUse" t4 s4 ts4)
        "postToolUse" = some ⟨t2, s2⟩ :=
  ⟨rfl, rfl, rfl, rfl⟩

/-- C2: a new span that resolves no parent, whose conversation id is valid
and already mapped in the conversation map to a trace id `t` (the map is only
written by `save_conversation_trace_id` on `sessionStart`, which stores the
deterministic derivation, whence the hypothesis
`t = generate_session_trace_id conv`; a stored trace id is non-zero, as
Python tests it for truthiness), is created reusing that stored trace id with
a fresh random span id — for every hook event, including `sessionStart`,
whose branch recomputes the same deterministic value. -/
theorem C2_reuse_conversation_trace_id
    (conv : String) (hook_event generation_id : Option String)
    (conv_map : ConvMap) (session_trace_of_gen : String → Option Nat)
    (rand fresh_trace fresh_span t : Nat)
    (hne : conv ≠ "") (hunk : conv ≠ "unknown")
    (hmap : get_conversation_trace_id conv_map conv = some t)
    (hdet : t = generate_session_trace_id conv)
    (hpos : 0 < t) :
    created_ids
      (create_span_with_context none (some conv) hook_event generation_id
        conv_map session_trace_of_gen rand) fresh_trace fresh_span =
      (t, fresh_span) := by
  have hconv : truthyStr (some conv) = true := by
    simp [truthyStr, hne]
  have hunk' : ((some conv : Option String) != some "unknown") = true := by
    simp [hunk]
  by_cases he : hook_event = some "sessionStart"
  · subst he
    simp only [create_span_with_context, hconv, hunk', Option.getD,
      beq_self_eq_true, Bool.and_self, Bool.true_and, if_true, created_ids]
    rw [hdet]
  · have he' : (hook_event == some "sessionStart") = false := by
      simp [he]
    simp only [create_span_with_context, hconv, hunk', he', Option.getD,
      Bool.false_and, Bool.and_true, Bool.true_and, if_false, Bool.false_eq_true,
      if_true, hmap]
    have ht : (t != 0) = true := by simp; omega
    simp [ht, created_ids]

set_option maxRecDepth 100000 in
/-- Witness for C2 at a concrete input: conversation `"abc"` mapped by
`save_conversation_trace_id` to its deterministic trace id; a parentless
`stop` event reuses it with the fresh span id `42`. -/
theorem C2_reuse_conversation_trace_id_witness :
    created_ids
      (create_span_with_context none (some "abc") (some "stop") none
        (save_conversation_trace_id (fun _ => none) "abc"
          (generate_session_trace_id "abc"))
        (fun _ => none) 7) 99 42 =
      (generate_session_trace_id "abc", 42) :=
  C2_reuse_conversation_trace_id "abc" (some "stop") none _ _ 7 99 42 _
    (by decide) (by decide) rfl rfl (by decide)

/-- C7: the span encoder is total (the embedding is a total Lean function:
no error case exists); for a span whose ids are in range (trace id 128-bit,
span id 64-bit) the rendered `traceId` is exactly 32 lower-case hex
characters and the rendered `spanId` exactly 16; an attribute value of
unknown type falls back to its `str()` form; the `parentSpanId` key is
omitted whenever the span has no parent — absence is represented by the
missing key, never by `null` nor a zero id; and `_span_to_dict` encodes the
span identically to `_encode_span`. -/
theorem C7_span_encoder_total (s : PySpan)
    (ht : s.ctx.trace_id < 2 ^ 128) (hs : s.ctx.span_id < 2 ^ 64) :
    ((encode_span s).traceId.length = 32 ∧ allLowerHex (encode_span s).traceId) ∧
    ((encode_span s).spanId.length = 16 ∧ allLowerHex (encode_span s).spanId) ∧
    (∀ k str, (k, PyValue.vOther str) ∈ s.attributes →
      ({ key := k, value := .stringValue str } : OtlpAttr) ∈
        (encode_span s).attributes) ∧
    (s.parent = none → (encode_span s).parentSpanId = none) ∧
    (span_to_dict s).span = encode_span s := by
  have h1632 : (16 : Nat) ^ 32 = 2 ^ 128 := by norm_num
  have h1616 : (16 : Nat) ^ 16 = 2 ^ 64 := by norm_num
  refine ⟨⟨?_, ?_⟩, ⟨?_, ?_⟩, ?_, ?_, rfl⟩
  · exact pyFormatHex_length 32 _ (by omega) (h1632 ▸ ht)
  · exact pyFormatHex_isLowerHex 32 _
  · exact pyFormatHex_length 16 _ (by omega) (h1616 ▸ hs)
  · exact pyFormatHex_isLowerHex 16 _
  · intro k str hmem
    show _ ∈ encode_attributes s.attributes
    simp only [encode_attributes, List.mem_map]
    exact ⟨(k, .vOther str), hmem, rfl⟩
  · intro hp
    simp [encode_span, hp]

/-- A concrete span record used by the C7 witness. -/
def examplePySpan : PySpan :=
  { ctx := { trace_id := 123456789, span_id := 987654321 }
    parent := none
    name := "cursor.preToolUse"
    kind := .internal
    start_time := 100
    end_time := 200
    attributes := [("obj", PyValue.vOther "object repr")]
    status := some { status_code := .ok, description := none }
    events := []
    resource := some [("service.name", PyValue.vStr "cursor-agent")] }

/-- Witness for C7 at a concrete input. -/
theorem C7_span_encoder_total_witness :
    (encode_span examplePySpan).traceId.length = 32 ∧
    (encode_span examplePySpan).parentSpanId = none :=
  ⟨(C7_span_encoder_total examplePySpan (by decide) (by decide)).1.1,
   (C7_span_encoder_total examplePySpan (by decide) (by decide)).2.2.2.1 rfl⟩

/-- A concrete encoded span object used by the concrete store-file inputs
below. -/
def exampleOtlpSpan : OtlpSpan :=
  { traceId := "0123456789abcdef0123456789abcdef"
    spanId := "0123456789abcdef"
    name := "cursor.preToolUse"
    kind := 1
    startTimeUnixNano := "100"
    endTimeUnixNano := "200"
    attributes := []
    status := { code := 1, message := none }
    parentSpanId := none
    events := none }

/-- C5: flush outcomes.  A missing store file flushes to success without
invoking the uploader; for a store that drains to a non-empty span list,
uploader failure makes flush return failure with the file left fully intact
and no retry (the embedding performs a single upload per flush), and
uploader success deletes the file unless debug/preserve mode is set. -/
theorem C5_flush_outcomes
    (service_name : String) (debug : Bool) (lines : List StoreLine)
    (spans : List OtlpSpan) (res : List (String × PyValue))
    (hok : drainLoop lines [] [] = .ok (spans, res)) (hne : spans ≠ []) :
    flush_generation none service_name debug true =
      { success := true, fileAfter := none, uploaded := none } ∧
    flush_generation none service_name debug false =
      { success := true, fileAfter := none, uploaded := none } ∧
    flush_generation (some lines) service_name debug false =
      { success := false, fileAfter := some lines
        uploaded := some (build_otlp_payload spans service_name res) } ∧
    flush_generation (some lines) service_name debug true =
      { success := true
        fileAfter := if debug then some lines else none
        uploaded := some (build_otlp_payload spans service_name res) } := by
  have hemp : spans.isEmpty = false := by
    cases spans with
    | nil => exact absurd rfl hne
    | cons a l => rfl
  refine ⟨rfl, rfl, ?_, ?_⟩ <;>
    simp [flush_generation, hok, hemp]

/-- Witness for C5 at a concrete one-record store. -/
theorem C5_flush_outcomes_witness :
    flush_generation
        (some [StoreLine.record
          { span := exampleOtlpSpan
            resource := some [("host.name", PyValue.vStr "h1")] }])
        "cursor-agent" false false =
      { success := false
        fileAfter := some [StoreLine.record
          { span := exampleOtlpSpan
            resource := some [("host.name", PyValue.vStr "h1")] }]
        uploaded := some (build_otlp_payload [exampleOtlpSpan] "cursor-agent"
          [("host.name", PyValue.vStr "h1")]) } :=
  (C5_flush_outcomes "cursor-agent" false
    [StoreLine.record
      { span := exampleOtlpSpan
        resource := some [("host.name", PyValue.vStr "h1")] }]
    [exampleOtlpSpan]
    [("host.name", PyValue.vStr "h1")] rfl (List.cons_ne_nil _ _)).2.2.1

/-- C10: a store file that exists but contains only blank lines (so no
parseable record at all) flushes to success with the file deleted and the
uploader never invoked; the deletion is unconditional, happening even when
debug/preserve mode is enabled. -/
theorem C10_blank_only_flush (lines : List StoreLine)
    (hblank : ∀ l ∈ lines, l = StoreLine.blank)
    (service_name : String) (debug uploaderOk : Bool) :
    flush_generation (some lines) service_name debug uploaderOk =
      { success := true, fileAfter := none, uploaded := none } := by
  have hdrain : drainLoop lines [] [] = .ok ([], []) :=
    drainLoop_all_blank lines hblank [] []
  simp [flush_generation, hdrain]

/-- Witness for C10 at a concrete input, with debug mode enabled. -/
theorem C10_blank_only_flush_witness :
    flush_generation (some [StoreLine.blank, StoreLine.blank]) "cursor-agent"
        true true =
      { success := true, fileAfter := none, uploaded := none } :=
  C10_blank_only_flush [StoreLine.blank, StoreLine.blank]
    (by
      intro l hl
      rcases List.mem_cons.mp hl with h | h
      · exact h
      · rcases List.mem_cons.mp h with h' | h'
        · exact h'
        · cases h')
    "cursor-agent" true true

/-- C8: for a store that drains successfully to a non-empty span list, the
per-record resource fragments are merged in file order with last-write-wins
on key collisions (looking up any key in the merge equals taking the last
binding of that key across the concatenated fragments in file order); the
flushed payload's single resource block starts with `{service.name:
service_name}` from the argument, contains the `service.name` key exactly
once, and every same-named key from the merged fragments is dropped, so the
argument takes precedence. -/
theorem C8_resource_merge
    (lines : List StoreLine) (spans : List OtlpSpan)
    (res : List (String × PyValue)) (service_name : String)
    (debug uploaderOk : Bool)
    (hok : drainLoop lines [] [] = .ok (spans, res)) (hne : spans ≠ []) :
    res = mergeFragments (resourceFragments lines) ∧
    (∀ k, assocLookup res k = lookupLast (resourceFragments lines).flatten k) ∧
    (flush_generation (some lines) service_name debug uploaderOk).uploaded =
      some (build_otlp_payload spans service_name res) ∧
    (build_otlp_payload spans service_name res).resource_attributes.countP
        (fun a => a.key == "service.name") = 1 ∧
    (build_otlp_payload spans service_name res).resource_attributes.head? =
      some { key := "service.name", value := .stringValue service_name } := by
  have hres : res = mergeFragments (resourceFragments lines) :=
    (drainLoop_ok lines [] [] spans res hok).2
  have hemp : spans.isEmpty = false := by
    cases spans with
    | nil => exact absurd rfl hne
    | cons a l => rfl
  refine ⟨hres, ?_, ?_, ?_, rfl⟩
  · intro k
    rw [hres, assocLookup_mergeFragments]
  · cases uploaderOk <;> simp [flush_generation, hok, hemp]
  · have h0 : ((res.filter (fun kv => kv.1 != "service.name")).map
        (fun kv => ({ key := kv.1, value := encodeResourceValue kv.2 } :
          OtlpAttr))).countP (fun a => a.key == "service.name") = 0 := by
      rw [List.countP_eq_zero]
      intro a ha
      simp only [List.mem_map, List.mem_filter] at ha
      obtain ⟨kv, ⟨_, hkv⟩, rfl⟩ := ha
      simpa using hkv
    simp [build_otlp_payload, List.countP_cons, h0]

/-- Five stored records whose resource fragments differ only in the key
`"region"` and carry a conflicting `"service.name"`; used by the C8
witness. -/
def exampleFragLine (region : String) : StoreLine :=
  StoreLine.record
    { span := exampleOtlpSpan
      resource := some [("region", PyValue.vStr region),
                        ("service.name", PyValue.vStr "not-this")] }

/-- The five-record store itself. -/
def exampleFragLines : List StoreLine :=
  [exampleFragLine "r1", exampleFragLine "r2", exampleFragLine "r3",
   exampleFragLine "r4", exampleFragLine "r5"]

/-- Witness for C8 on the five-record store: the flushed resource block
carries `service.name` exactly once. -/
theorem C8_resource_merge_witness :
    (build_otlp_payload
        [exampleOtlpSpan, exampleOtlpSpan, exampleOtlpSpan, exampleOtlpSpan,
         exampleOtlpSpan] "cursor-agent"
        [("region", PyValue.vStr "r5"),
         ("service.name", PyValue.vStr "not-this")]).resource_attributes.countP
      (fun a => a.key == "service.name") = 1 :=
  (C8_resource_merge exampleFragLines
    [exampleOtlpSpan, exampleOtlpSpan, exampleOtlpSpan, exampleOtlpSpan,
     exampleOtlpSpan]
    [("region", PyValue.vStr "r5"), ("service.name", PyValue.vStr "not-this")]
    "cursor-agent" false true (by rfl) (List.cons_ne_nil _ _)).2.2.2.1

/-- C9: a boolean among the merged resource fragments is encoded in the
flushed batch payload as `{intValue: str(value)}` — the `isinstance(value,
int)` test precedes the `bool` test in `_build_otlp_payload` and Python's
`bool` subclasses `int` — whereas the same boolean as a span attribute is
encoded `{boolValue: ...}`, the `bool` test coming first in
`_encode_attributes`. -/
theorem C9_bool_encoding_divergence :
    (∀ b : Bool, encodeResourceValue (.vBool b) =
        .intValue (if b then "True" else "False")) ∧
    (∀ b : Bool, encodeAttrValue (.vBool b) = .boolValue b) ∧
    (∀ (spans : List OtlpSpan) (service_name : String)
        (res : List (String × PyValue)) (k : String) (b : Bool),
      (k, PyValue.vBool b) ∈ res → k ≠ "service.name" →
      ({ key := k, value := .intValue (pyStr (.vBool b)) } : OtlpAttr) ∈
        (build_otlp_payload spans service_name res).resource_attributes) ∧
    (∀ (attrs : List (String × PyValue)) (k : String) (b : Bool),
      (k, PyValue.vBool b) ∈ attrs →
      ({ key := k, value := .boolValue b } : OtlpAttr) ∈
        encode_attributes attrs) := by
  refine ⟨?_, ?_, ?_, ?_⟩
  · intro b
    cases b <;> rfl
  · intro b
    rfl
  · intro spans service_name res k b hmem hk
    simp only [build_otlp_payload, List.mem_cons]
    right
    simp only [List.mem_map, List.mem_filter]
    refine ⟨(k, .vBool b), ⟨hmem, ?_⟩, rfl⟩
    simpa using hk
  · intro attrs k b hmem
    simp only [encode_attributes, List.mem_map]
    exact ⟨(k, .vBool b), hmem, rfl⟩

/-- Witness for C9 at a concrete input: the boolean `True` under key
`"flag"` appears as `intValue "True"` in the batch resource block but as
`boolValue true` among encoded span attributes. -/
theorem C9_bool_encoding_divergence_witness :
    ({ key := "flag", value := .intValue "True" } : OtlpAttr) ∈
      (build_otlp_payload [] "cursor-agent"
        [("flag", PyValue.vBool true)]).resource_attributes ∧
    ({ key := "flag", value := .boolValue true } : OtlpAttr) ∈
      encode_attributes [("flag", PyValue.vBool true)] :=
  ⟨C9_bool_encoding_divergence.2.2.1 [] "cursor-agent" _ "flag" true
      (List.mem_singleton.mpr rfl) (by decide),
   C9_bool_encoding_divergence.2.2.2 _ "flag" true (List.mem_singleton.mpr rfl)⟩

/-- C1 counterexample: a store with one well-formed line and one malformed
line does NOT drain to the one parseable record — `json.loads` raises on the
malformed line inside the read loop of `flush_generation`, the enclosing
`except` catches it, and the flush returns failure without ever invoking the
uploader, leaving the file intact.  This contradicts the claim that the file
drains to exactly N records and the flush proceeds with them. -/
theorem C1_counterexample :
    flush_generation
        (some [StoreLine.record { span := exampleOtlpSpan, resource := some [] },
               StoreLine.malformed])
        "cursor-agent" false true =
      { success := false
        fileAfter :=
          some [StoreLine.record { span := exampleOtlpSpan, resource := some [] },
                StoreLine.malformed]
        uploaded := none } := rfl

/-- C1 amended: only blank lines are skipped by the drain; an unparseable
line aborts the entire drain — for any store containing a malformed line,
`flush_generation` catches the parse error, returns failure, leaves the
store file intact and never invokes the uploader. -/
theorem C1_amended_malformed_aborts (lines : List StoreLine)
    (h : StoreLine.malformed ∈ lines)
    (service_name : String) (debug uploaderOk : Bool) :
    flush_generation (some lines) service_name debug uploaderOk =
      { success := false, fileAfter := some lines, uploaded := none } := by
  simp [flush_generation, drainLoop_error_of_malformed lines h]

/-- Witness for the amended C1 at a concrete input. -/
theorem C1_amended_malformed_aborts_witness :
    flush_generation (some [StoreLine.malformed]) "cursor-agent" false true =
      { success := false, fileAfter := some [StoreLine.malformed]
        uploaded := none } :=
  C1_amended_malformed_aborts [StoreLine.malformed]
    (List.mem_singleton.mpr rfl) "cursor-agent" false true

end CursorOtelHook
